import Mathlib

set_option maxRecDepth 4000

/-!
Verification of the grpc_demo bridge (web_api.py, server.py, server_combined_A.py):
the line codec, the LED-reply decoders, the socket client's lock/reconnect/retry
logic and the HTTP adapter's status mapping, modelled as pure functions.
Python strings are modelled as lists of characters; fallible Python code is
modelled with Option/Except, where none / Except.error stands for a raised
exception.
-/

/-- Python str whitespace test (ASCII range), as used by str.strip() and str.split(). -/
def pyWs (c : Char) : Bool :=
  c == ' ' || c == '\t' || c == '\n' || c == '\x0b' || c == '\x0c' || c == '\r'

/-- The character set " :\t" stripped right after the LED token in parse_led_line. -/
def scT (c : Char) : Bool := c == ' ' || c == ':' || c == '\t'

/-- Remove trailing characters satisfying p (Python str.rstrip). -/
def rstripBy (p : Char → Bool) : List Char → List Char
  | [] => []
  | c :: rest =>
    match rstripBy p rest with
    | [] => if p c then [] else [c]
    | x :: xs => c :: x :: xs

/-- Remove leading and trailing characters satisfying p (Python str.strip with a set). -/
def stripBy (p : Char → Bool) (s : List Char) : List Char :=
  rstripBy p (s.dropWhile p)

/-- Python str.strip() with no arguments: whitespace stripped at both ends. -/
def pyStrip (s : List Char) : List Char := stripBy pyWs s

/-- Python str.upper() on ASCII text. -/
def pyUpper (s : List Char) : List Char := s.map Char.toUpper

/-- The substitution rest.replace(",", " ") in parse_led_line. -/
def replaceComma (s : List Char) : List Char :=
  s.map fun c => if c == ',' then ' ' else c

/-- Helper for pySplit: whitespace-delimited fields, current field carried reversed. -/
def splitAux : List Char → List Char → List (List Char)
  | [], cur => if cur.isEmpty then [] else [cur.reverse]
  | c :: rest, cur =>
    if pyWs c then
      if cur.isEmpty then splitAux rest [] else cur.reverse :: splitAux rest []
    else splitAux rest (c :: cur)

/-- Python str.split() with no arguments: split on whitespace runs, no empty fields. -/
def pySplit (s : List Char) : List (List Char) := splitAux s []

/-- ASCII digit test. -/
def isDigitC (c : Char) : Bool := '0' ≤ c && c ≤ '9'

/-- Numeric value of an ASCII digit. -/
def digitVal (c : Char) : Nat := c.toNat - 48

/-- Digit tail of a CPython decimal int literal: digits, with single underscores
allowed between digits (models CPython int() on ASCII numerals). -/
def digitsCore : List Char → Nat → Option Nat
  | [], acc => some acc
  | ['_'], _ => none
  | '_' :: c :: rest, acc =>
    if isDigitC c then digitsCore rest (acc * 10 + digitVal c) else none
  | c :: rest, acc =>
    if isDigitC c then digitsCore rest (acc * 10 + digitVal c) else none

/-- Unsigned body of a CPython int literal: the first character must be a digit. -/
def pyIntCore : List Char → Option Nat
  | [] => none
  | c :: rest => if isDigitC c then digitsCore rest (digitVal c) else none

/-- CPython int(token) for whitespace-free tokens: optional sign then decimal
digits; none models the ValueError raised on a malformed token. -/
def pyInt : List Char → Option Int
  | '+' :: rest => (pyIntCore rest).map Int.ofNat
  | '-' :: rest => (pyIntCore rest).map fun n => -(n : Int)
  | s => (pyIntCore s).map Int.ofNat

/-- The token loop of parse_led_line: parse each field with int(), silently skip
failures, and normalize each parsed value to 1 when nonzero, else 0. -/
def collectInts : List (List Char) → List Int
  | [] => []
  | p :: rest =>
    match pyInt p with
    | some v => (if v ≠ 0 then 1 else 0) :: collectInts rest
    | none => collectInts rest

/-- parse_led_line from web_api.py: accept lines whose stripped upper-case form
starts with LED, strip " :\t" after the three-character prefix, replace commas by
spaces, split on whitespace, parse tokens skipping garbage, normalize nonzero to
1; returns none when the prefix check fails or no token parses. -/
def parse_led_line (raw : List Char) : Option (List Int) :=
  let s := pyStrip raw
  if "LED".data.isPrefixOf (pyUpper s) then
    let leds := collectInts (pySplit (replaceComma (stripBy scT (s.drop 3))))
    if leds = [] then none else some leds
  else none

/-- parse_led_line from server_combined_A.py: the same pipeline, but the empty
list plays the role of the failure marker instead of None. -/
def parse_led_lineA (raw : List Char) : List Int :=
  let s := pyStrip raw
  if "LED".data.isPrefixOf (pyUpper s) then
    collectInts (pySplit (replaceComma (stripBy scT (s.drop 3))))
  else []

/-- list(map(int, parts)) in server.py GetLedState: all-or-nothing integer parse
of the fields, none modelling the ValueError that aborts the handler. -/
def intsAll : List (List Char) → Option (List Int)
  | [] => some []
  | p :: rest =>
    match pyInt p, intsAll rest with
    | some v, some vs => some (v :: vs)
    | _, _ => none

/-- The inline LED decode in server.py GetLedState, applied to the stripped reply
produced by send_cmd: split on whitespace, require the first field to equal "LED"
exactly (case-sensitive), map int over the remaining fields without any
normalization; none models the IndexError / ValueError escaping the handler, and
some [] is the successful empty LedState returned when the first field differs
from "LED". -/
def serverLedDecode (raw : List Char) : Option (List Int) :=
  match pySplit (pyStrip raw) with
  | [] => none
  | h :: t => if h = "LED".data then intsAll t else some []

/-- Every value produced by the token loop of parse_led_line is 0 or 1. -/
theorem collectInts_mem (ps : List (List Char)) : ∀ v ∈ collectInts ps, v = 0 ∨ v = 1 := by
  induction ps with
  | nil => intro v hv; simp [collectInts] at hv
  | cons p rest ih =>
    intro v hv
    simp only [collectInts] at hv
    cases h : pyInt p with
    | none => rw [h] at hv; exact ih v hv
    | some w =>
      rw [h] at hv
      rcases List.mem_cons.mp hv with hv | hv
      · by_cases hw : w ≠ 0 <;> simp [hw] at hv <;> [exact Or.inr hv; exact Or.inl hv]
      · exact ih v hv

/-- C4: parse_led_line accepts the comma, colon and lower-case spellings of a LED
reply, filters tokens through int() and normalizes every parsed integer to 1 when
nonzero else 0; in particular the spellings "LED 1,0,0", "LED: 1 0 0" and
"led 1 0 0" all decode to the identical sequence [1, 0, 0]. -/
theorem c4_led_reply_normalization :
    parse_led_line "LED 1,0,0".data = some [1, 0, 0]
    ∧ parse_led_line "LED: 1 0 0".data = some [1, 0, 0]
    ∧ parse_led_line "led 1 0 0".data = some [1, 0, 0]
    ∧ parse_led_line "LED:1,0,0".data = some [1, 0, 0]
    ∧ parse_led_line "LED 5 0 -3".data = some [1, 0, 1] := by
  decide

/-- C6 (amended): the two parse_led_line variants are total and tolerant: in
web_api.py every input decodes to none (not a LED reply) or to a nonempty
ordered sequence of 0/1 values, in server_combined_A.py every produced value is
0 or 1, and in both a malformed token is skipped rather than fatal to the line,
as on "LED 1 two 0"; the inline decode of server.py GetLedState instead lets a
malformed token raise. -/
theorem c6_decode_total_and_tolerant :
    (∀ raw : List Char, parse_led_line raw = none
      ∨ ∃ l, parse_led_line raw = some l ∧ l ≠ [] ∧ ∀ v ∈ l, v = 0 ∨ v = 1)
    ∧ parse_led_line "LED 1 two 0".data = some [1, 0]
    ∧ (∀ raw : List Char, ∀ v ∈ parse_led_lineA raw, v = 0 ∨ v = 1)
    ∧ parse_led_lineA "LED 1 two 0".data = [1, 0] := by
  refine ⟨?_, by decide, ?_, by decide⟩
  · intro raw
    by_cases h : "LED".data.isPrefixOf (pyUpper (pyStrip raw)) = true
    · by_cases h2 :
          collectInts (pySplit (replaceComma (stripBy scT ((pyStrip raw).drop 3)))) = []
      · left; simp [parse_led_line, h, h2]
      · right
        refine ⟨_, ?_, h2, collectInts_mem _⟩
        simp [parse_led_line, h, h2]
    · left; simp [parse_led_line, h]
  · intro raw v hv
    by_cases h : "LED".data.isPrefixOf (pyUpper (pyStrip raw)) = true
    · simp only [parse_led_lineA, h, if_true] at hv
      exact collectInts_mem _ v hv
    · simp [parse_led_lineA, h] at hv

/-- Witness for the amended C6 at concrete inputs: the malformed token "two" is
skipped by parse_led_line, and the value 1 produced by the combined variant on
"LED 5" is binary. -/
theorem c6_decode_total_and_tolerant_witness :
    parse_led_line "LED 1 two 0".data = some [1, 0]
    ∧ ((1 : Int) = 0 ∨ (1 : Int) = 1) :=
  ⟨c6_decode_total_and_tolerant.2.1,
   c6_decode_total_and_tolerant.2.2.1 "LED 5".data 1 (by decide)⟩

/-- C6 counterexample: the inline decode of server.py GetLedState, a cited
source of the claim, is neither total nor tolerant: on "LED 1 two 0" the
malformed token makes list(map(int, parts[1:])) raise an uncaught ValueError
(modeled as none), aborting the handler instead of skipping the token; on an
empty reply parts[0] raises IndexError; and on "LED 2" it returns the raw
non-binary value 2 rather than a 0/1 sequence. -/
theorem c6_counterexample :
    serverLedDecode "LED 1 two 0".data = none
    ∧ serverLedDecode [] = none
    ∧ serverLedDecode "LED 2".data = some [2] := by
  decide

/-- C5 counterexample: on the non-LED reply "OK done", the inline decode of
server.py GetLedState yields some [], a successful empty LedState rather than a
distinguished not-applicable signal, and on the LED-prefixed reply "LED x" with
no parseable token the server_combined_A variant of parse_led_line yields the
empty list itself; both are empty LED sequences a caller can mistake for a
successful empty state, contradicting the claim. -/
theorem c5_counterexample :
    serverLedDecode "OK done".data = some []
    ∧ parse_led_lineA "LED x".data = []
    ∧ parse_led_lineA "ERR 1".data = [] := by
  decide

/-- C5 (amended): the web_api.py decoder does signal not-applicable: it returns
none on every line whose stripped upper-case form does not start with LED, and it
never returns some [] for any input; the server_combined_A variant and the
server.py inline decode instead deliver an empty list in those situations. -/
theorem c5_not_applicable_never_empty :
    (∀ raw : List Char, "LED".data.isPrefixOf (pyUpper (pyStrip raw)) = false →
      parse_led_line raw = none)
    ∧ (∀ raw : List Char, parse_led_line raw ≠ some []) := by
  constructor
  · intro raw h
    simp [parse_led_line, h]
  · intro raw h
    by_cases hp : "LED".data.isPrefixOf (pyUpper (pyStrip raw)) = true
    · by_cases h2 :
          collectInts (pySplit (replaceComma (stripBy scT ((pyStrip raw).drop 3)))) = []
      · simp [parse_led_line, hp, h2] at h
      · simp [parse_led_line, hp, h2] at h
    · simp [parse_led_line, hp] at h

/-- Witness for the amended C5 at the concrete inputs "OK done" and "HELLO". -/
theorem c5_not_applicable_never_empty_witness :
    parse_led_line "OK done".data = none
    ∧ parse_led_line "HELLO".data ≠ some [] :=
  ⟨c5_not_applicable_never_empty.1 "OK done".data (by decide),
   c5_not_applicable_never_empty.2 "HELLO".data⟩

/-- Tail of a canonical LED reply: one space then '1' or '0' per value. -/
def canonTail : List Bool → List Char
  | [] => []
  | b :: l => ' ' :: (if b then '1' else '0') :: canonTail l

/-- A canonical LED reply line, the family on which the two decoders agree:
exact-case verb LED, single spaces, plain 0/1 digit tokens. -/
def canonLine (l : List Bool) : List Char :=
  'L' :: 'E' :: 'D' :: canonTail l

/-- rstripBy keeps a head whose tail strips to something nonempty. -/
theorem rstripBy_cons_of_ne_nil (p : Char → Bool) (c : Char) (s : List Char)
    (h : rstripBy p s ≠ []) : rstripBy p (c :: s) = c :: rstripBy p s := by
  simp only [rstripBy]
  cases hs : rstripBy p s with
  | nil => exact absurd hs h
  | cons x xs => rfl

/-- rstripBy is the identity on a non-strippable head followed by a canonical tail. -/
theorem rstripBy_canonTail (p : Char → Bool)
    (hp : ∀ b : Bool, p (if b then '1' else '0') = false) :
    ∀ (l : List Bool) (d : Char), p d = false →
      rstripBy p (d :: canonTail l) = d :: canonTail l := by
  intro l
  induction l with
  | nil =>
    intro d hd
    simp [canonTail, rstripBy, hd]
  | cons b l ih =>
    intro d hd
    have h1 : rstripBy p ((if b then '1' else '0') :: canonTail l)
        = (if b then '1' else '0') :: canonTail l := ih _ (hp b)
    have h2 : rstripBy p (' ' :: (if b then '1' else '0') :: canonTail l)
        = ' ' :: (if b then '1' else '0') :: canonTail l := by
      rw [rstripBy_cons_of_ne_nil p ' ' _ (by rw [h1]; exact List.cons_ne_nil _ _), h1]
    simp only [canonTail]
    rw [rstripBy_cons_of_ne_nil p d _ (by rw [h2]; exact List.cons_ne_nil _ _), h2]

/-- splitAux skips a non-whitespace head into the current field. -/
theorem splitAux_cons_not_ws (c : Char) (rest cur : List Char) (h : pyWs c = false) :
    splitAux (c :: rest) cur = splitAux rest (c :: cur) := by
  simp [splitAux, h]

/-- splitAux recovers the 0/1 fields of a canonical tail. -/
theorem splitAux_canonTail :
    ∀ (l : List Bool) (x : Char) (xs : List Char),
      splitAux (canonTail l) (x :: xs)
        = (x :: xs).reverse :: l.map (fun b => [if b then '1' else '0']) := by
  intro l
  induction l with
  | nil => intro x xs; simp [canonTail, splitAux]
  | cons b l ih =>
    intro x xs
    have hb : pyWs (if b then '1' else '0') = false := by cases b <;> decide
    have hsp : pyWs ' ' = true := by decide
    simp only [canonTail]
    rw [show splitAux (' ' :: ((if b then '1' else '0') :: canonTail l)) (x :: xs)
        = (x :: xs).reverse :: splitAux ((if b then '1' else '0') :: canonTail l) [] from by
      simp [splitAux, hsp]]
    rw [splitAux_cons_not_ws _ _ _ hb, ih (if b then '1' else '0') []]
    simp

/-- replaceComma is the identity on a canonical tail. -/
theorem replaceComma_canonTail (l : List Bool) : replaceComma (canonTail l) = canonTail l := by
  induction l with
  | nil => rfl
  | cons b l ih =>
    cases b <;> simp only [canonTail, replaceComma, List.map_cons] at ih ⊢ <;>
      simp_all [replaceComma]

/-- int() on the two canonical digit tokens. -/
theorem pyInt_digit (b : Bool) :
    pyInt [if b then '1' else '0'] = some (if b then (1 : Int) else 0) := by
  cases b <;> decide

/-- The all-or-nothing parse of server.py succeeds on canonical digit fields. -/
theorem intsAll_digits (l : List Bool) :
    intsAll (l.map fun b => [if b then '1' else '0'])
      = some (l.map fun b => if b then (1 : Int) else 0) := by
  induction l with
  | nil => rfl
  | cons b l ih => simp [intsAll, pyInt_digit b, ih]

/-- The skip-and-normalize loop of parse_led_line on canonical digit fields. -/
theorem collectInts_digits (l : List Bool) :
    collectInts (l.map fun b => [if b then '1' else '0'])
      = l.map fun b => if b then (1 : Int) else 0 := by
  induction l with
  | nil => rfl
  | cons b l ih =>
    simp only [List.map_cons, collectInts, pyInt_digit b, ih]
    cases b <;> simp

/-- Stripping whitespace is the identity on a canonical LED line. -/
theorem pyStrip_canonLine (l : List Bool) : pyStrip (canonLine l) = canonLine l := by
  have hp : ∀ b : Bool, pyWs (if b then '1' else '0') = false := by
    intro b; cases b <;> decide
  cases l with
  | nil => decide
  | cons b l =>
    have h1 : rstripBy pyWs ('D' :: canonTail (b :: l)) = 'D' :: canonTail (b :: l) :=
      rstripBy_canonTail pyWs hp (b :: l) 'D' (by decide)
    have h2 : rstripBy pyWs ('E' :: 'D' :: canonTail (b :: l))
        = 'E' :: 'D' :: canonTail (b :: l) := by
      rw [rstripBy_cons_of_ne_nil pyWs 'E' _ (by rw [h1]; exact List.cons_ne_nil _ _), h1]
    have h3 : rstripBy pyWs ('L' :: 'E' :: 'D' :: canonTail (b :: l))
        = 'L' :: 'E' :: 'D' :: canonTail (b :: l) := by
      rw [rstripBy_cons_of_ne_nil pyWs 'L' _ (by rw [h2]; exact List.cons_ne_nil _ _), h2]
    have hL : pyWs 'L' = false := by decide
    simp only [canonLine, pyStrip, stripBy, List.dropWhile_cons, hL]
    simpa using h3

/-- C10 (amended): the server.py inline decode and parse_led_line agree on
canonical LED replies: for every nonempty value list rendered as the line
"LED b1 ... bk" with exact-case verb, single spaces and plain 0/1 digits, both
return exactly that sequence; outside this family they diverge (case of the
verb, colon/comma spellings, non-binary values, malformed tokens, empty lines). -/
theorem c10_decoders_agree_on_canonical (b : Bool) (l : List Bool) :
    parse_led_line (canonLine (b :: l))
      = some ((b :: l).map fun x => if x then (1 : Int) else 0)
    ∧ serverLedDecode (canonLine (b :: l))
      = some ((b :: l).map fun x => if x then (1 : Int) else 0) := by
  have hp : ∀ x : Bool, pyWs (if x then '1' else '0') = false := by
    intro x; cases x <;> decide
  have hsct : ∀ x : Bool, scT (if x then '1' else '0') = false := by
    intro x; cases x <;> decide
  have hstrip := pyStrip_canonLine (b :: l)
  have hupper : pyUpper (canonLine (b :: l))
      = 'L' :: 'E' :: 'D' :: pyUpper (canonTail (b :: l)) := by
    simp [canonLine, pyUpper]
  have hpre : "LED".data.isPrefixOf (pyUpper (canonLine (b :: l))) = true := by
    rw [hupper]
    simp [List.isPrefixOf]
  have hdigit : replaceComma ((if b then '1' else '0') :: canonTail l)
      = (if b then '1' else '0') :: canonTail l := by
    have := replaceComma_canonTail l
    cases b <;> simp only [replaceComma, List.map_cons] at this ⊢ <;> simp_all [replaceComma]
  have hsplit : pySplit ((if b then '1' else '0') :: canonTail l)
      = (b :: l).map fun x => [if x then '1' else '0'] := by
    rw [pySplit, splitAux_cons_not_ws _ _ _ (hp b), splitAux_canonTail]
    simp
  have hstripT : stripBy scT (canonTail (b :: l))
      = (if b then '1' else '0') :: canonTail l := by
    have hspc : scT ' ' = true := by decide
    simp only [canonTail, stripBy, List.dropWhile_cons, hspc, hsct b, if_true, if_false,
      Bool.false_eq_true]
    exact rstripBy_canonTail scT hsct l _ (hsct b)
  constructor
  · rw [parse_led_line]
    simp only [hstrip, hpre, if_pos]
    have hdrop : (canonLine (b :: l)).drop 3 = canonTail (b :: l) := by
      simp [canonLine]
    rw [hdrop, hstripT, hdigit, hsplit, collectInts_digits]
    simp
  · have hws : pySplit (canonLine (b :: l))
        = "LED".data :: (b :: l).map fun x => [if x then '1' else '0'] := by
      rw [pySplit, canonLine]
      rw [splitAux_cons_not_ws _ _ _ (by decide), splitAux_cons_not_ws _ _ _ (by decide),
        splitAux_cons_not_ws _ _ _ (by decide), splitAux_canonTail]
      rfl
    rw [serverLedDecode, hstrip, hws]
    simpa using intsAll_digits (b :: l)

/-- C10 counterexample: on the reply "LED 2" both decoders succeed but disagree:
parse_led_line normalizes the nonzero value to 1 while the inline decode of
server.py returns the raw 2, so the two decodes are not equivalent. -/
theorem c10_counterexample :
    parse_led_line "LED 2".data = some [1]
    ∧ serverLedDecode "LED 2".data = some [2]
    ∧ (some [(1 : Int)] : Option (List Int)) ≠ some [2] := by
  decide

/-- Decimal digit character, as produced by Python str(int). -/
def digitChar (d : Nat) : Char := Char.ofNat (48 + d)

/-- Fuel-driven decimal rendering of a natural number (most significant first). -/
def natCharsAux : Nat → Nat → List Char
  | 0, _ => []
  | fuel + 1, n =>
    if n < 10 then [digitChar n]
    else natCharsAux fuel (n / 10) ++ [digitChar (n % 10)]

/-- Python str(i) for a non-negative integer, modelled over ASCII digits. -/
def natChars (n : Nat) : List Char := natCharsAux (n + 1) n

/-- The four commands issued by the SimClient helpers press / release /
get_leds / step. -/
inductive Cmd
  | press (index : Nat)
  | release (index : Nat)
  | getled
  | step (times intervalMs : Nat)

/-- The f-string command text each helper passes to _send_recv_line. -/
def cmdText : Cmd → List Char
  | Cmd.press i => "PRESS ".data ++ natChars i
  | Cmd.release i => "RELEASE ".data ++ natChars i
  | Cmd.getled => "GETLED".data
  | Cmd.step n ms => "STEP ".data ++ natChars n ++ [' '] ++ natChars ms

/-- Python line.endswith of a single newline. -/
def endsWithNL (s : List Char) : Bool := decide (s.getLast? = some '\n')

/-- The newline completion in _send_recv_line and send_cmd: append one newline
only when the text does not already end with one. -/
def addNL (s : List Char) : List Char :=
  if endsWithNL s then s else s ++ ['\n']

/-- The exact line written to the socket for a command. -/
def wireLine (c : Cmd) : List Char := addNL (cmdText c)

/-- Length of the leading newline run of a list. -/
def newlineRun : List Char → Nat
  | [] => 0
  | c :: rest => if c = '\n' then newlineRun rest + 1 else 0

/-- Number of trailing newline characters of a line. -/
def trailNL (s : List Char) : Nat := newlineRun s.reverse

/-- Atomic lock and socket operations, for stating the locking discipline. -/
inductive SockOp
  | lockAcquire | lockRelease | sockConnect | sockSend | sockRecv | sockClose
  deriving DecidableEq

/-- Outcome of one sendall-plus-recv attempt inside _send_recv_line: the send
raises, the recv raises, or the recv returns the given bytes. -/
inductive NetOut
  | sendErr | recvErr | recvd (resp : List Char)
  deriving DecidableEq

/-- Failure taxonomy surfaced by the modelled client: ConnectionError from
_ensure_conn, an I/O error escaping the retry, and the empty-reply
ConnectionError. -/
inductive XErr
  | connectFail | transport | emptyReply
  deriving DecidableEq

/-- Socket operations performed by one sendall/recv attempt with a given outcome. -/
def attemptTr : NetOut → List SockOp
  | NetOut.sendErr => [SockOp.sockSend]
  | NetOut.recvErr => [SockOp.sockSend, SockOp.sockRecv]
  | NetOut.recvd _ => [SockOp.sockSend, SockOp.sockRecv]

/-- The retry loop of _ensure_conn (web_api.py): ok gives each connect attempt's
outcome; the result is paired with the number of attempts made and the list of
sleeps (in ms) performed after failed attempts, in order. -/
def connectLoopM (ok : Nat → Bool) : Nat → Nat → Except Unit Unit × Nat × List Nat
  | _, 0 => (Except.error (), 0, [])
  | i, r + 1 =>
    if ok i then (Except.ok (), 1, [])
    else
      let t := connectLoopM ok (i + 1) r
      (t.1, t.2.1 + 1, 100 * (i + 1) :: t.2.2)

/-- SimClient._ensure_conn (web_api.py): return at once when a socket already
exists, otherwise try to connect CONNECT_RETRY = 3 times, sleeping
0.1 * (i + 1) seconds (here 100 * (i + 1) ms) after each failed attempt, and
raise ConnectionError when every attempt fails. -/
def ensureConnM (sock : Option Unit) (ok : Nat → Bool) : Except Unit Unit × Nat × List Nat :=
  match sock with
  | some _ => (Except.ok (), 0, [])
  | none => connectLoopM ok 0 3

/-- The tail of _send_recv_line: raise ConnectionError on an empty reply, else
return the decoded and stripped text. -/
def finishResp (r : List Char) : Except XErr (List Char) :=
  if r = [] then Except.error XErr.emptyReply else Except.ok (pyStrip r)

/-- The except-branch of _send_recv_line: close and drop the socket, reconnect
through _ensure_conn, then run one more sendall/recv whose failure propagates
to the caller with no further retry. -/
def retryCore (t1 ft : List SockOp) (ok2 : Nat → Bool) (io : Nat → NetOut) :
    Except XErr (List Char) × List SockOp :=
  let e2 := ensureConnM none ok2
  let t2 := List.replicate e2.2.1 SockOp.sockConnect
  match e2.1 with
  | Except.error _ => (Except.error XErr.connectFail, t1 ++ ft ++ [SockOp.sockClose] ++ t2)
  | Except.ok _ =>
    match io 1 with
    | NetOut.recvd r =>
      (finishResp r, t1 ++ ft ++ [SockOp.sockClose] ++ t2 ++ [SockOp.sockSend, SockOp.sockRecv])
    | x =>
      (Except.error XErr.transport, t1 ++ ft ++ [SockOp.sockClose] ++ t2 ++ attemptTr x)

/-- SimClient._send_recv_line (web_api.py): inside the with-lock block, ensure a
connection, send and receive once, and on an I/O error (BrokenPipeError,
ConnectionResetError, TimeoutError, OSError) reconnect and retry exactly once;
sock says whether a socket exists on entry, ok1/ok2 drive the two possible
_ensure_conn calls, io gives each sendall/recv attempt's outcome. The result is
paired with the trace of lock and socket operations; the lock is released on
every path, as the with statement guarantees. -/
def sendRecvLineM (sock : Option Unit) (ok1 ok2 : Nat → Bool) (io : Nat → NetOut) :
    Except XErr (List Char) × List SockOp :=
  let e1 := ensureConnM sock ok1
  let t1 := List.replicate e1.2.1 SockOp.sockConnect
  let core :=
    match e1.1 with
    | Except.error _ => (Except.error XErr.connectFail, t1)
    | Except.ok _ =>
      match io 0 with
      | NetOut.recvd r => (finishResp r, t1 ++ [SockOp.sockSend, SockOp.sockRecv])
      | x => retryCore t1 (attemptTr x) ok2 io
  (core.1, SockOp.lockAcquire :: core.2 ++ [SockOp.lockRelease])

/-- Check that every socket send and recv in the trace happens at positive lock
depth. -/
def guardedFrom : Nat → List SockOp → Bool
  | _, [] => true
  | d, SockOp.lockAcquire :: r => guardedFrom (d + 1) r
  | d, SockOp.lockRelease :: r => guardedFrom (d - 1) r
  | 0, SockOp.sockSend :: _ => false
  | d + 1, SockOp.sockSend :: r => guardedFrom (d + 1) r
  | 0, SockOp.sockRecv :: _ => false
  | d + 1, SockOp.sockRecv :: r => guardedFrom (d + 1) r
  | d, _ :: r => guardedFrom d r

/-- Lock discipline of a whole trace, starting outside the lock. -/
def lockGuarded (tr : List SockOp) : Bool := guardedFrom 0 tr

/-- Number of sendall operations in a trace (one per exchange attempt). -/
def sendOps : List SockOp → Nat
  | [] => 0
  | SockOp.sockSend :: r => sendOps r + 1
  | _ :: r => sendOps r

/-- The read loop of send_cmd (server.py / server_combined_A.py): accumulate
recv chunks until the data ends with a newline or a recv returns no bytes;
chunks lists the successive recv results, an exhausted list standing for a
peer that returns empty. Returns the accumulated bytes and the recv trace. -/
def readLineTr : List (List Char) → List Char → List Char × List SockOp
  | chunks, acc =>
    if endsWithNL acc then (acc, [])
    else
      match chunks with
      | [] => (acc, [SockOp.sockRecv])
      | c :: rest =>
        if c.isEmpty then (acc, [SockOp.sockRecv])
        else
          let t := readLineTr rest (acc ++ c)
          (t.1, SockOp.sockRecv :: t.2)

/-- send_cmd in server.py: send the command text as given (callers append the
newline themselves), then read one line and strip it; no lock is taken anywhere
on this path. Returns the reply and the socket-operation trace. -/
def sendCmdServerTr (_cmd : List Char) (chunks : List (List Char)) :
    List Char × List SockOp :=
  let t := readLineTr chunks []
  (pyStrip t.1, SockOp.sockSend :: t.2)

/-- PressButton in server.py GpioDemoServicer: send_cmd of "PRESS idx\n" on the
servicer's shared socket, with no lock on the path even though the gRPC server
runs four worker threads. -/
def serverPressTr (idx : Nat) (chunks : List (List Char)) : List Char × List SockOp :=
  sendCmdServerTr ("PRESS ".data ++ natChars idx ++ ['\n']) chunks

/-- send_cmd in server_combined_A.py: append a newline if missing, send, then
read one line and strip it; returns the wire line sent and the reply text. -/
def send_cmdA (cmd : List Char) (chunks : List (List Char)) : List Char × List Char :=
  (addNL cmd, pyStrip (readLineTr chunks []).1)

/-- Outcome of one send_cmd attempt in server_combined_A.py SimClient._send_recv:
either the attempt raises an I/O error, or the recv loop sees these chunks. -/
inductive NetA
  | ioFail | chunks (cs : List (List Char))

/-- SimClient._send_recv (server_combined_A.py): one send_cmd attempt under the
lock; on BrokenPipeError / ConnectionResetError / OSError close the socket,
reconnect once through _connect (a single attempt, reconnectOk its outcome),
and run send_cmd again with any failure propagating. Returns the result and the
number of send_cmd attempts made. -/
def sendRecvA (line : List Char) (io : Nat → NetA) (reconnectOk : Bool) :
    Except XErr (List Char) × Nat :=
  match io 0 with
  | NetA.chunks cs => (Except.ok (send_cmdA line cs).2, 1)
  | NetA.ioFail =>
    if reconnectOk then
      match io 1 with
      | NetA.chunks cs => (Except.ok (send_cmdA line cs).2, 2)
      | NetA.ioFail => (Except.error XErr.transport, 2)
    else (Except.error XErr.connectFail, 1)

/-- SimClient._connect (server_combined_A.py): a single connect attempt whose
failure raises; the attempt count is always exactly 1. -/
def connectAM (ok : Bool) : Except Unit Unit × Nat :=
  (if ok then Except.ok () else Except.error (), 1)

/-- Socket operations of one send_cmd attempt in server_combined_A.py: the send
followed by the recv loop's receives when the attempt returns, or the send and
the given number of completed receives when the attempt raises mid-exchange. -/
def sendCmdAOps (a : NetA) (failRecvs : Nat) : List SockOp :=
  match a with
  | NetA.chunks cs => SockOp.sockSend :: (readLineTr cs []).2
  | NetA.ioFail => SockOp.sockSend :: List.replicate failRecvs SockOp.sockRecv

/-- SimClient._send_recv (server_combined_A.py) with its lock and socket
operations made explicit: the with-lock block wraps the first send_cmd and, on
an I/O error, the close, the single _connect and the retried send_cmd, and the
lock is released on every path; failRecvs gives, for a failing attempt, how
many recv calls completed before the error. The result component coincides with
sendRecvA. -/
def sendRecvATr (line : List Char) (io : Nat → NetA) (reconnectOk : Bool)
    (failRecvs : Nat → Nat) : (Except XErr (List Char) × Nat) × List SockOp :=
  match io 0 with
  | NetA.chunks cs =>
    ((Except.ok (send_cmdA line cs).2, 1),
      SockOp.lockAcquire :: sendCmdAOps (NetA.chunks cs) 0 ++ [SockOp.lockRelease])
  | NetA.ioFail =>
    if reconnectOk then
      match io 1 with
      | NetA.chunks cs =>
        ((Except.ok (send_cmdA line cs).2, 2),
          SockOp.lockAcquire :: sendCmdAOps NetA.ioFail (failRecvs 0)
            ++ [SockOp.sockClose, SockOp.sockConnect]
            ++ sendCmdAOps (NetA.chunks cs) 0 ++ [SockOp.lockRelease])
      | NetA.ioFail =>
        ((Except.error XErr.transport, 2),
          SockOp.lockAcquire :: sendCmdAOps NetA.ioFail (failRecvs 0)
            ++ [SockOp.sockClose, SockOp.sockConnect]
            ++ sendCmdAOps NetA.ioFail (failRecvs 1) ++ [SockOp.lockRelease])
    else
      ((Except.error XErr.connectFail, 1),
        SockOp.lockAcquire :: sendCmdAOps NetA.ioFail (failRecvs 0)
          ++ [SockOp.sockClose, SockOp.sockConnect, SockOp.lockRelease])

/-- The instrumented combined-variant exchange computes the same result and
attempt count as sendRecvA. -/
theorem sendRecvATr_result (line : List Char) (io : Nat → NetA) (ok : Bool)
    (fr : Nat → Nat) : (sendRecvATr line io ok fr).1 = sendRecvA line io ok := by
  simp only [sendRecvATr, sendRecvA]
  cases h0 : io 0 with
  | chunks cs => rfl
  | ioFail =>
    cases ok with
    | false => rfl
    | true => cases h1 : io 1 <;> rfl

/-- Receives at depth 1 keep the trace guarded. -/
theorem guardedFrom_one_replicate_recv (k : Nat) (r : List SockOp) :
    guardedFrom 1 (List.replicate k SockOp.sockRecv ++ r) = guardedFrom 1 r := by
  induction k with
  | zero => simp
  | succ k ih => simp [List.replicate_succ, guardedFrom, ih]

/-- The recv loop of send_cmd at depth 1 keeps the trace guarded. -/
theorem guardedFrom_one_readLine (cs : List (List Char)) :
    ∀ (acc : List Char) (r : List SockOp),
      guardedFrom 1 ((readLineTr cs acc).2 ++ r) = guardedFrom 1 r := by
  induction cs with
  | nil =>
    intro acc r
    by_cases h : endsWithNL acc = true <;> simp [readLineTr, h, guardedFrom]
  | cons c rest ih =>
    intro acc r
    by_cases h : endsWithNL acc = true
    · simp [readLineTr, h, guardedFrom]
    · by_cases hc : c.isEmpty = true
      · simp [readLineTr, h, hc, guardedFrom]
      · simp [readLineTr, h, hc, guardedFrom, ih]

/-- One send_cmd attempt at depth 1 keeps the trace guarded. -/
theorem guardedFrom_one_sendCmdAOps (a : NetA) (k : Nat) (r : List SockOp) :
    guardedFrom 1 (sendCmdAOps a k ++ r) = guardedFrom 1 r := by
  cases a with
  | chunks cs =>
    simp [sendCmdAOps, guardedFrom, guardedFrom_one_readLine cs]
  | ioFail =>
    simp [sendCmdAOps, guardedFrom, guardedFrom_one_replicate_recv]

/-- Connect attempts are neither sends nor receives for the lock discipline. -/
theorem guardedFrom_append_replicate (d n : Nat) (r : List SockOp) :
    guardedFrom d (List.replicate n SockOp.sockConnect ++ r) = guardedFrom d r := by
  induction n with
  | zero => simp
  | succ n ih => simp [List.replicate_succ, guardedFrom, ih]

/-- One exchange attempt at depth 1 keeps the trace guarded. -/
theorem guardedFrom_one_attempt (x : NetOut) (r : List SockOp) :
    guardedFrom 1 (attemptTr x ++ r) = guardedFrom 1 r := by
  cases x <;> simp [attemptTr, guardedFrom]

/-- sendOps distributes over append. -/
theorem sendOps_append (a b : List SockOp) : sendOps (a ++ b) = sendOps a + sendOps b := by
  induction a with
  | nil => simp [sendOps]
  | cons x a ih =>
    cases x <;> simp [sendOps, ih]
    all_goals omega

/-- Connect attempts contribute no sends. -/
theorem sendOps_replicate (n : Nat) : sendOps (List.replicate n SockOp.sockConnect) = 0 := by
  induction n with
  | zero => rfl
  | succ n ih => simp [List.replicate_succ, sendOps, ih]

/-- Every exchange attempt contributes exactly one send. -/
theorem sendOps_attempt (x : NetOut) : sendOps (attemptTr x) = 1 := by
  cases x <;> rfl

/-- C1 (amended): in web_api.py every socket send and recv of
SimClient._send_recv_line happens with the instance lock held, on every path
(first attempt, reconnect, retry, and all failures), and likewise every socket
operation of SimClient._send_recv in server_combined_A.py; but the gRPC
servicer of server.py sends and receives on its shared socket with no lock at
all, so its four concurrent worker threads are not serialized. -/
theorem c1_lock_discipline :
    (∀ (sock : Option Unit) (ok1 ok2 : Nat → Bool) (io : Nat → NetOut),
      lockGuarded (sendRecvLineM sock ok1 ok2 io).2 = true)
    ∧ (∀ (line : List Char) (io : Nat → NetA) (ok : Bool) (fr : Nat → Nat),
      lockGuarded (sendRecvATr line io ok fr).2 = true)
    ∧ (∀ (idx : Nat) (chunks : List (List Char)),
      lockGuarded (serverPressTr idx chunks).2 = false) := by
  refine ⟨?_, ?_, ?_⟩
  · intro sock ok1 ok2 io
    simp only [lockGuarded, sendRecvLineM]
    cases h1 : (ensureConnM sock ok1).1 with
    | error e =>
      simp [guardedFrom, guardedFrom_append_replicate, List.append_assoc]
    | ok u =>
      cases h2 : io 0 with
      | recvd r =>
        simp [guardedFrom, guardedFrom_append_replicate, List.append_assoc]
      | sendErr =>
        simp only [retryCore]
        cases h3 : (ensureConnM none ok2).1 with
        | error e2 =>
          simp [guardedFrom, guardedFrom_append_replicate, guardedFrom_one_attempt,
            List.append_assoc]
        | ok u2 =>
          cases h4 : io 1 with
          | recvd r =>
            simp [guardedFrom, guardedFrom_append_replicate, guardedFrom_one_attempt,
              List.append_assoc]
          | sendErr =>
            simp [guardedFrom, guardedFrom_append_replicate, guardedFrom_one_attempt,
              List.append_assoc]
          | recvErr =>
            simp [guardedFrom, guardedFrom_append_replicate, guardedFrom_one_attempt,
              List.append_assoc]
      | recvErr =>
        simp only [retryCore]
        cases h3 : (ensureConnM none ok2).1 with
        | error e2 =>
          simp [guardedFrom, guardedFrom_append_replicate, guardedFrom_one_attempt,
            List.append_assoc]
        | ok u2 =>
          cases h4 : io 1 with
          | recvd r =>
            simp [guardedFrom, guardedFrom_append_replicate, guardedFrom_one_attempt,
              List.append_assoc]
          | sendErr =>
            simp [guardedFrom, guardedFrom_append_replicate, guardedFrom_one_attempt,
              List.append_assoc]
          | recvErr =>
            simp [guardedFrom, guardedFrom_append_replicate, guardedFrom_one_attempt,
              List.append_assoc]
  · intro line io ok fr
    simp only [lockGuarded, sendRecvATr]
    cases h0 : io 0 with
    | chunks cs =>
      simp [guardedFrom, guardedFrom_one_sendCmdAOps, guardedFrom_one_readLine,
        guardedFrom_one_replicate_recv, List.append_assoc]
    | ioFail =>
      cases ok with
      | false =>
        simp [guardedFrom, guardedFrom_one_sendCmdAOps, guardedFrom_one_readLine,
          guardedFrom_one_replicate_recv, List.append_assoc]
      | true =>
        cases h1 : io 1 <;>
          simp [guardedFrom, guardedFrom_one_sendCmdAOps, guardedFrom_one_readLine,
            guardedFrom_one_replicate_recv, List.append_assoc]
  · intro idx chunks
    simp [serverPressTr, sendCmdServerTr, lockGuarded, guardedFrom]

/-- C1 counterexample: a concrete PressButton exchange in server.py (reply
"OK\n") sends and receives on the socket with no lock acquisition anywhere in
its trace, refuting the claim that no code path touches the socket without
holding the Access Lock. -/
theorem c1_counterexample :
    lockGuarded (serverPressTr 0 [['O', 'K', '\n']]).2 = false
    ∧ (serverPressTr 0 [['O', 'K', '\n']]).2
        = [SockOp.sockSend, SockOp.sockRecv] := by
  constructor <;> decide

/-- C2: on an I/O error during the exchange, web_api.py's _send_recv_line closes
the socket and performs exactly one transparent reconnect-and-retry of the whole
send-then-read; a successful retry is invisible to the caller, a failed retry
surfaces the error, and no path ever makes more than two exchange attempts; the
server_combined_A.py _send_recv behaves the same way around send_cmd. -/
theorem c2_retry_exactly_once :
    (∀ (sock : Option Unit) (ok1 ok2 : Nat → Bool) (io : Nat → NetOut),
      sendOps (sendRecvLineM sock ok1 ok2 io).2 ≤ 2)
    ∧ (∀ (ok1 ok2 : Nat → Bool) (io : Nat → NetOut) (r : List Char),
        (io 0 = NetOut.sendErr ∨ io 0 = NetOut.recvErr) → ok2 0 = true →
        io 1 = NetOut.recvd r → r ≠ [] →
        (sendRecvLineM (some ()) ok1 ok2 io).1 = Except.ok (pyStrip r)
        ∧ SockOp.sockClose ∈ (sendRecvLineM (some ()) ok1 ok2 io).2)
    ∧ (∀ (ok1 ok2 : Nat → Bool) (io : Nat → NetOut),
        (io 0 = NetOut.sendErr ∨ io 0 = NetOut.recvErr) → ok2 0 = true →
        (io 1 = NetOut.sendErr ∨ io 1 = NetOut.recvErr) →
        (sendRecvLineM (some ()) ok1 ok2 io).1 = Except.error XErr.transport
        ∧ sendOps (sendRecvLineM (some ()) ok1 ok2 io).2 = 2)
    ∧ (∀ (line : List Char) (io : Nat → NetA) (ok : Bool), (sendRecvA line io ok).2 ≤ 2)
    ∧ (∀ (line : List Char) (io : Nat → NetA),
        io 0 = NetA.ioFail → io 1 = NetA.ioFail →
        (sendRecvA line io true).1 = Except.error XErr.transport) := by
  refine ⟨?_, ?_, ?_, ?_, ?_⟩
  · intro sock ok1 ok2 io
    simp only [sendRecvLineM]
    cases h1 : (ensureConnM sock ok1).1 with
    | error e => simp [sendOps, sendOps_append, sendOps_replicate]
    | ok u =>
      cases h2 : io 0 with
      | recvd r =>
        simp [sendOps, sendOps_append, sendOps_replicate, List.append_assoc]
      | sendErr =>
        simp only [retryCore]
        cases h3 : (ensureConnM none ok2).1 with
        | error e2 =>
          simp [sendOps, sendOps_append, sendOps_replicate, sendOps_attempt,
            List.append_assoc]
        | ok u2 =>
          cases h4 : io 1 <;>
            simp [sendOps, sendOps_append, sendOps_replicate, sendOps_attempt,
              List.append_assoc]
      | recvErr =>
        simp only [retryCore]
        cases h3 : (ensureConnM none ok2).1 with
        | error e2 =>
          simp [sendOps, sendOps_append, sendOps_replicate, sendOps_attempt,
            List.append_assoc]
        | ok u2 =>
          cases h4 : io 1 <;>
            simp [sendOps, sendOps_append, sendOps_replicate, sendOps_attempt,
              List.append_assoc]
  · intro ok1 ok2 io r h0 hok h1 hr
    rcases h0 with h0 | h0 <;>
      simp [sendRecvLineM, retryCore, ensureConnM, connectLoopM, finishResp,
        h0, hok, h1, hr]
  · intro ok1 ok2 io h0 hok h1
    rcases h0 with h0 | h0 <;> rcases h1 with h1 | h1 <;>
      simp [sendRecvLineM, retryCore, ensureConnM, connectLoopM, sendOps,
        sendOps_append, sendOps_replicate, sendOps_attempt, attemptTr,
        List.append_assoc, h0, hok, h1]
  · intro line io ok
    simp only [sendRecvA]
    cases h0 : io 0 with
    | chunks cs => simp
    | ioFail =>
      cases ok with
      | false => simp
      | true => cases h1 : io 1 <;> simp
  · intro line io h0 h1
    simp [sendRecvA, h0, h1]

/-- Witness for C2: a failed first attempt followed by a successful retry yields
the reply; two failed attempts surface a transport error, in both variants. -/
theorem c2_retry_exactly_once_witness :
    (sendRecvLineM (some ()) (fun _ => true) (fun _ => true)
        (fun k => if k = 0 then NetOut.sendErr else NetOut.recvd "OK".data)).1
      = Except.ok (pyStrip "OK".data)
    ∧ (sendRecvLineM (some ()) (fun _ => true) (fun _ => true)
        (fun _ => NetOut.recvErr)).1 = Except.error XErr.transport
    ∧ (sendRecvA "GETLED".data (fun _ => NetA.ioFail) true).1
      = Except.error XErr.transport := by
  refine ⟨?_, ?_, ?_⟩
  · exact (c2_retry_exactly_once.2.1 (fun _ => true) (fun _ => true) _ "OK".data
      (Or.inl rfl) rfl rfl (by decide)).1
  · exact (c2_retry_exactly_once.2.2.1 (fun _ => true) (fun _ => true) _
      (Or.inr rfl) rfl (Or.inr rfl)).1
  · exact c2_retry_exactly_once.2.2.2.2 "GETLED".data _ rfl rfl

/-- The _ensure_conn retry loop never makes more attempts than its bound. -/
theorem connectLoopM_attempts (r : Nat) :
    ∀ (i : Nat) (ok : Nat → Bool), (connectLoopM ok i r).2.1 ≤ r := by
  induction r with
  | zero => intro i ok; simp [connectLoopM]
  | succ r ih =>
    intro i ok
    by_cases h : ok i = true
    · simp [connectLoopM, h]
    · simp only [connectLoopM, h]
      have := ih (i + 1) ok
      simp only [Bool.false_eq_true, if_false]
      omega

/-- C3 (amended): web_api.py's _ensure_conn connects up to exactly
CONNECT_RETRY = 3 times, sleeping 100 ms times the attempt number after each
failed attempt, raises ConnectionError after exactly 3 failed attempts, stops at
the first success, and does nothing when a connection already exists; but the
server_combined_A.py _connect procedure makes exactly one attempt and raises
immediately on its failure. -/
theorem c3_connect_retry :
    (∀ ok : Nat → Bool, ok 0 = false → ok 1 = false → ok 2 = false →
      ensureConnM none ok = (Except.error (), 3, [100, 200, 300]))
    ∧ (∀ (sock : Option Unit) (ok : Nat → Bool), (ensureConnM sock ok).2.1 ≤ 3)
    ∧ (∀ ok : Nat → Bool, ok 0 = true → ensureConnM none ok = (Except.ok (), 1, []))
    ∧ (∀ sock : Option Unit, ∀ ok : Nat → Bool, sock = some () →
        ensureConnM sock ok = (Except.ok (), 0, []))
    ∧ (∀ b : Bool, (connectAM b).2 = 1) := by
  refine ⟨?_, ?_, ?_, ?_, ?_⟩
  · intro ok h0 h1 h2
    simp [ensureConnM, connectLoopM, h0, h1, h2]
  · intro sock ok
    cases sock with
    | some u => simp [ensureConnM]
    | none => exact connectLoopM_attempts 3 0 ok
  · intro ok h0
    simp [ensureConnM, connectLoopM, h0]
  · intro sock ok hs
    subst hs
    rfl
  · intro b
    rfl

/-- Witness for C3: with every attempt refused _ensure_conn makes exactly three
attempts, sleeps 100, 200, 300 ms and raises; with the first attempt accepted it
stops after one attempt. -/
theorem c3_connect_retry_witness :
    ensureConnM none (fun _ => false) = (Except.error (), 3, [100, 200, 300])
    ∧ ensureConnM none (fun _ => true) = (Except.ok (), 1, []) :=
  ⟨c3_connect_retry.1 (fun _ => false) rfl rfl rfl,
   c3_connect_retry.2.2.1 (fun _ => true) rfl⟩

/-- C3 counterexample: the connect procedure of server_combined_A.py (SimClient
._connect, named by the claim's sources) raises after exactly one failed
attempt, not after three. -/
theorem c3_counterexample :
    connectAM false = (Except.error (), 1) ∧ (connectAM false).2 ≠ 3 :=
  ⟨rfl, by decide⟩

/-- Every decimal digit character is an ASCII digit. -/
theorem digitChar_digit : ∀ d : Nat, d < 10 → isDigitC (digitChar d) = true := by
  decide

/-- An ASCII digit is not a newline. -/
theorem isDigitC_ne_nl {c : Char} (h : isDigitC c = true) : c ≠ '\n' := by
  intro he
  subst he
  exact absurd h (by decide)

/-- With positive fuel, the decimal rendering ends in a digit character. -/
theorem natCharsAux_shape (fuel n : Nat) (h : 0 < fuel) :
    ∃ ds d, natCharsAux fuel n = ds ++ [d] ∧ isDigitC d = true := by
  cases fuel with
  | zero => omega
  | succ f =>
    by_cases hn : n < 10
    · exact ⟨[], digitChar n, by simp [natCharsAux, hn], digitChar_digit n hn⟩
    · exact ⟨natCharsAux f (n / 10), digitChar (n % 10), by simp [natCharsAux, hn],
        digitChar_digit _ (Nat.mod_lt n (by norm_num))⟩

/-- str(i) ends in a digit character. -/
theorem natChars_shape (n : Nat) : ∃ ds d, natChars n = ds ++ [d] ∧ isDigitC d = true :=
  natCharsAux_shape (n + 1) n (Nat.succ_pos n)

/-- endswith of a line ending in a known character. -/
theorem endsWithNL_concat (a : List Char) (c : Char) :
    endsWithNL (a ++ [c]) = decide (c = '\n') := by
  simp [endsWithNL, List.getLast?_append_cons]

/-- Trailing-newline count of a body ending in a non-newline character followed
by one newline. -/
theorem trailNL_after_digit (x ds : List Char) (d : Char) (hd : d ≠ '\n') :
    trailNL ((x ++ (ds ++ [d])) ++ ['\n']) = 1 := by
  simp [trailNL, List.reverse_append, newlineRun, hd]

/-- C7: the wire lines for the four commands are "PRESS i\n", "RELEASE i\n",
"GETLED\n" and "STEP n ms\n", each ending in exactly one newline because str(i)
ends in a digit; press and release differ only in the verb token; and the
newline completion appends one newline exactly when the text lacks one and never
double-appends. -/
theorem c7_wire_encoding (i n ms : Nat) :
    wireLine (Cmd.press i) = "PRESS ".data ++ natChars i ++ ['\n']
    ∧ wireLine (Cmd.release i) = "RELEASE ".data ++ natChars i ++ ['\n']
    ∧ wireLine Cmd.getled = "GETLED".data ++ ['\n']
    ∧ wireLine (Cmd.step n ms)
        = "STEP ".data ++ natChars n ++ [' '] ++ natChars ms ++ ['\n']
    ∧ trailNL (wireLine (Cmd.press i)) = 1
    ∧ trailNL (wireLine (Cmd.release i)) = 1
    ∧ trailNL (wireLine Cmd.getled) = 1
    ∧ trailNL (wireLine (Cmd.step n ms)) = 1
    ∧ (∃ t, wireLine (Cmd.press i) = "PRESS".data ++ t
        ∧ wireLine (Cmd.release i) = "RELEASE".data ++ t)
    ∧ (∀ s : List Char, endsWithNL s = true → addNL s = s)
    ∧ (∀ s : List Char, endsWithNL s = false → addNL s = s ++ ['\n']) := by
  obtain ⟨dsi, di, hshi, hdgi⟩ := natChars_shape i
  obtain ⟨dsm, dm, hshm, hdgm⟩ := natChars_shape ms
  have hdi : di ≠ '\n' := isDigitC_ne_nl hdgi
  have hdm : dm ≠ '\n' := isDigitC_ne_nl hdgm
  have hpress : endsWithNL ("PRESS ".data ++ natChars i) = false := by
    rw [hshi, ← List.append_assoc, endsWithNL_concat]
    simp [hdi]
  have hrel : endsWithNL ("RELEASE ".data ++ natChars i) = false := by
    rw [hshi, ← List.append_assoc, endsWithNL_concat]
    simp [hdi]
  have hstep : endsWithNL ("STEP ".data ++ natChars n ++ [' '] ++ natChars ms) = false := by
    rw [hshm, ← List.append_assoc, endsWithNL_concat]
    simp [hdm]
  have e1 : wireLine (Cmd.press i) = "PRESS ".data ++ natChars i ++ ['\n'] := by
    simp only [wireLine, cmdText, addNL, hpress, Bool.false_eq_true, if_false]
  have e2 : wireLine (Cmd.release i) = "RELEASE ".data ++ natChars i ++ ['\n'] := by
    simp only [wireLine, cmdText, addNL, hrel, Bool.false_eq_true, if_false]
  have e3 : wireLine Cmd.getled = "GETLED".data ++ ['\n'] := by decide
  have e4 : wireLine (Cmd.step n ms)
      = "STEP ".data ++ natChars n ++ [' '] ++ natChars ms ++ ['\n'] := by
    simp only [wireLine, cmdText, addNL, hstep, Bool.false_eq_true, if_false]
  refine ⟨e1, e2, e3, e4, ?_, ?_, ?_, ?_, ?_, ?_, ?_⟩
  · rw [e1, hshi]
    exact trailNL_after_digit "PRESS ".data dsi di hdi
  · rw [e2, hshi]
    exact trailNL_after_digit "RELEASE ".data dsi di hdi
  · decide
  · rw [e4, hshm]
    exact trailNL_after_digit ("STEP ".data ++ natChars n ++ [' ']) dsm dm hdm
  · refine ⟨' ' :: (natChars i ++ ['\n']), ?_, ?_⟩
    · rw [e1, List.append_assoc]
      rfl
    · rw [e2, List.append_assoc]
      rfl
  · intro s h
    simp [addNL, h]
  · intro s h
    simp [addNL, h]

/-- Witness for C7 at index 3, exercising both newline-completion cases. -/
theorem c7_wire_encoding_witness :
    wireLine (Cmd.press 3) = "PRESS 3\n".data
    ∧ addNL "OK\n".data = "OK\n".data
    ∧ addNL "OK".data = "OK\n".data := by
  refine ⟨?_, ?_, ?_⟩
  · rw [(c7_wire_encoding 3 1 2).1]
    decide
  · exact (c7_wire_encoding 3 1 2).2.2.2.2.2.2.2.2.2.1 "OK\n".data (by decide)
  · exact (c7_wire_encoding 3 1 2).2.2.2.2.2.2.2.2.2.2 "OK".data (by decide)

/-- C8 (amended): web_api.py's _send_recv_line raises ConnectionError whenever a
recv completes with zero bytes, on the first attempt and on the retry alike, and
never returns the empty reply as a success; server_combined_A.py's send_cmd
instead returns the empty string as a normal acknowledgement value when the
first recv yields no bytes. -/
theorem c8_empty_reply :
    (∀ (ok1 ok2 : Nat → Bool) (io : Nat → NetOut), io 0 = NetOut.recvd [] →
      (sendRecvLineM (some ()) ok1 ok2 io).1 = Except.error XErr.emptyReply)
    ∧ (∀ (ok1 ok2 : Nat → Bool) (io : Nat → NetOut),
        (io 0 = NetOut.sendErr ∨ io 0 = NetOut.recvErr) → ok2 0 = true →
        io 1 = NetOut.recvd [] →
        (sendRecvLineM (some ()) ok1 ok2 io).1 = Except.error XErr.emptyReply)
    ∧ (∀ line : List Char,
        (sendRecvA line (fun _ => NetA.chunks []) true).1 = Except.ok []) := by
  refine ⟨?_, ?_, ?_⟩
  · intro ok1 ok2 io h0
    simp [sendRecvLineM, ensureConnM, finishResp, h0]
  · intro ok1 ok2 io h0 hok h1
    rcases h0 with h0 | h0 <;>
      simp [sendRecvLineM, retryCore, ensureConnM, connectLoopM, finishResp, h0, hok, h1]
  · intro line
    rfl

/-- Witness for C8: a zero-byte first read fails with the empty-reply error in
web_api.py, while the combined variant returns the empty acknowledgement. -/
theorem c8_empty_reply_witness :
    (sendRecvLineM (some ()) (fun _ => true) (fun _ => true)
        (fun _ => NetOut.recvd [])).1 = Except.error XErr.emptyReply
    ∧ (sendRecvA "GETLED".data (fun _ => NetA.chunks []) true).1 = Except.ok [] :=
  ⟨c8_empty_reply.1 (fun _ => true) (fun _ => true) _ rfl,
   c8_empty_reply.2.2 "GETLED".data⟩

/-- C8 counterexample: in server_combined_A.py a recv loop that sees zero bytes
makes send_cmd return the empty string, which SimClient._send_recv hands to the
caller as a successful acknowledgement instead of failing with an empty-reply
error, so the claim fails for that exchange path. -/
theorem c8_counterexample :
    (sendRecvA "PRESS 0".data (fun _ => NetA.chunks []) true).1 = Except.ok []
    ∧ (send_cmdA "GETLED".data []).2 = [] := by
  constructor <;> rfl

/-- GET /api/health in web_api.py: run get_leds and answer 200 "ok" when it
succeeds, HTTP 503 when any exception escapes it; the argument is the outcome of
the client call, Except.error standing for the raised exception. -/
def healthH : Except Unit (List Int) → Nat
  | Except.ok _ => 200
  | Except.error _ => 503

/-- GET /api/leds in web_api.py: 200 on success, HTTP 502 on any client failure. -/
def ledsH : Except Unit (List Int) → Nat
  | Except.ok _ => 200
  | Except.error _ => 502

/-- The ButtonReq shape declared in web_api.py (index with ge=0, action a literal
press or release), enforced by the framework before the handler runs. -/
def buttonValid (index : Int) (action : List Char) : Bool :=
  decide (0 ≤ index) && (action == "press".data || action == "release".data)

/-- POST /api/button: a request failing validation is answered 422 without the
client being called; otherwise press or release is invoked and a failure maps to
HTTP 502. The Bool records whether the Protocol Client was contacted. -/
def buttonH (index : Int) (action : List Char) (r : Except Unit (List Char)) :
    Nat × Bool :=
  if buttonValid index action then
    match r with
    | Except.ok _ => (200, true)
    | Except.error _ => (502, true)
  else (422, false)

/-- The StepReq shape declared in web_api.py: times with ge=1, interval_ms with
ge=0. -/
def stepValid (times intervalMs : Int) : Bool :=
  decide (1 ≤ times) && decide (0 ≤ intervalMs)

/-- POST /api/step: 422 without contacting the client on invalid shape, else 200
on success and 502 on client failure. -/
def stepH (times intervalMs : Int) (r : Except Unit (List Char)) : Nat × Bool :=
  if stepValid times intervalMs then
    match r with
    | Except.ok _ => (200, true)
    | Except.error _ => (502, true)
  else (422, false)

/-- C9: the health endpoint answers 200 exactly when the get_leds call succeeds
and 503 exactly when it fails; the other endpoints answer 502 whenever the
Protocol Client call fails; and a request with index < 0, an unknown action,
times < 1 or interval_ms < 0 is answered 422 without the Protocol Client being
contacted. -/
theorem c9_http_status_mapping :
    (∀ r, healthH r = 200 ↔ ∃ v, r = Except.ok v)
    ∧ (∀ r, healthH r = 503 ↔ ∃ e, r = Except.error e)
    ∧ (∀ v, ledsH (Except.ok v) = 200)
    ∧ (∀ e, ledsH (Except.error e) = 502)
    ∧ (∀ index action r, buttonValid index action = false →
        buttonH index action r = (422, false))
    ∧ (∀ index action, buttonValid index action = true →
        (∀ v, buttonH index action (Except.ok v) = (200, true))
        ∧ ∀ e, buttonH index action (Except.error e) = (502, true))
    ∧ (∀ times ms r, stepValid times ms = false → stepH times ms r = (422, false))
    ∧ (∀ times ms, stepValid times ms = true →
        (∀ v, stepH times ms (Except.ok v) = (200, true))
        ∧ ∀ e, stepH times ms (Except.error e) = (502, true))
    ∧ buttonValid (-1) "press".data = false
    ∧ buttonValid 0 "poke".data = false
    ∧ stepValid 0 0 = false
    ∧ stepValid 1 (-1) = false := by
  refine ⟨?_, ?_, ?_, ?_, ?_, ?_, ?_, ?_, ?_, ?_, ?_, ?_⟩
  · intro r
    cases r <;> simp [healthH]
  · intro r
    cases r <;> simp [healthH]
  · intro v
    rfl
  · intro e
    rfl
  · intro index action r h
    simp [buttonH, h]
  · intro index action h
    exact ⟨fun v => by simp [buttonH, h], fun e => by simp [buttonH, h]⟩
  · intro times ms r h
    simp [stepH, h]
  · intro times ms h
    exact ⟨fun v => by simp [stepH, h], fun e => by simp [stepH, h]⟩
  · decide
  · decide
  · decide
  · decide

/-- Witness for C9 at concrete requests: a valid press with a failed client call
answers 502, a negative index answers 422 without a client call, a valid step
succeeds with 200, and times = 0 answers 422 without a client call. -/
theorem c9_http_status_mapping_witness :
    buttonH 0 "press".data (Except.error ()) = (502, true)
    ∧ buttonH (-1) "press".data (Except.ok "OK".data) = (422, false)
    ∧ stepH 1 0 (Except.ok "OK".data) = (200, true)
    ∧ stepH 0 5 (Except.ok "OK".data) = (422, false) := by
  refine ⟨?_, ?_, ?_, ?_⟩
  · exact (c9_http_status_mapping.2.2.2.2.2.1 0 "press".data (by decide)).2 ()
  · exact c9_http_status_mapping.2.2.2.2.1 (-1) "press".data _ (by decide)
  · exact (c9_http_status_mapping.2.2.2.2.2.2.2.1 1 0 (by decide)).1 "OK".data
  · exact c9_http_status_mapping.2.2.2.2.2.2.1 0 5 _ (by decide)
